import Mathlib

/-!
Verification of the ThermoBench-Consist check engine.

We give a shallow embedding of the core of the repository:
`thermobench/api.py` (Capabilities, SurrogateAdapter, FiniteDiff),
`thermobench/checks.py` (the four physical-consistency checks) and
`thermobench/score.py` (the aggregator), and prove or refute the
specification's claims about them.

Modelling conventions:
* Python floats are modelled as rationals (`ℚ`); float arithmetic is
  treated as exact.
* A non-finite float value (NaN or infinity) that the code can produce and
  store is modelled as `none : Option ℚ`.  In particular the 0.0/0.0 that
  `FiniteDiff.drho_dp_at_T` produces when the pressure step is zero, the
  NaN written into `rhs_vals`/`a2_sur`, and the `float("inf")` written into
  `rel_errors` are all `none`.  NaN comparison semantics (every comparison
  with NaN is false) are reproduced by the helper predicates below.
* An adapter call that raises is modelled as an `Option`-valued field
  returning `none` (`phase_split_at_T`, `speed_of_sound`); `rho` and `h`
  are total here since no claim exercises a raising density call.
* External CoolProp baseline queries are modelled by a `Baseline` record
  passed explicitly.
-/

namespace ThermoBench

/-- Source: `api.py`, `Capabilities` — a frozen dataclass with exactly the
three fields below (the file defines no `supports_speed_of_sound` field). -/
structure Capabilities where
  supports_rho : Bool := true
  supports_h : Bool := false
  supports_phase_split : Bool := false
deriving DecidableEq

/-- Properties of one coexisting phase as returned by `phase_split_at_T`:
the dict `{"rho": ..., "h": ...}`. -/
structure PhaseProps where
  rho : ℚ
  h : ℚ

/-- Source: `api.py`, `SurrogateAdapter` protocol.  `phase_split_at_T` and
`speed_of_sound` return `none` to model a raising call. -/
structure SurrogateAdapter where
  fluid : String
  rho : ℚ → ℚ → ℚ
  h : ℚ → ℚ → ℚ
  phase_split_at_T : ℚ → Option (ℚ × PhaseProps × PhaseProps)
  speed_of_sound : ℚ → ℚ → Option ℚ
  capabilities : Capabilities

/-- External CoolProp baseline, as used by `checks.py`:
`bounds = some (Ttriple, Tcrit)` models the successful `PropsSI` lookups at
`checks.py:182-183`; `bounds = none` models the `except` fallback to
`(-inf, inf)` (no temperature filtering).  `psat T` models
`PropsSI("P", "T", T, "Q", 0, fluid)`. -/
structure Baseline where
  bounds : Option (ℚ × ℚ)
  psat : ℚ → ℚ

/-- Comparison `x > c` under NaN semantics: `none` (NaN) compares false.
Models the elementwise numpy comparison `dr > -tol`. -/
def nanGt (x : Option ℚ) (c : ℚ) : Bool :=
  match x with
  | some v => decide (c < v)
  | none => false

/-- Membership of `x` in `[lo, hi)` under NaN semantics, modelling
`(dr >= 0) & (dr < eps_guard)`. -/
def nanInCO (x : Option ℚ) (lo hi : ℚ) : Bool :=
  match x with
  | some v => decide (lo ≤ v) && decide (v < hi)
  | none => false

/-- numpy `np.min` over a possibly-NaN list: NaN-propagating minimum;
`none` on the empty list (the callers guard that case separately). -/
def npMin : List (Option ℚ) → Option ℚ
  | [] => none
  | [x] => x
  | x :: y :: xs =>
    match x, npMin (y :: xs) with
    | some a, some b => some (min a b)
    | _, _ => none

/-- Source: `api.py:77-98`, `FiniteDiff.drho_dp_at_T`: evaluates density at
`p - dp/2` and `p + dp/2` and returns the centered quotient.  When
`dp = 0` the Python code divides `0.0` by `0.0` producing NaN, modelled as
`none`. -/
def FiniteDiff.drho_dp_at_T (adapter : SurrogateAdapter) (T p dp : ℚ) : Option ℚ :=
  if dp = 0 then none
  else some ((adapter.rho T (p + dp / 2) - adapter.rho T (p - dp / 2)) / dp)

/-- Source: `api.py:101-121`, `FiniteDiff.dP_sat_dT_coolprop`: symmetric
difference of the baseline saturation pressure around `T` with step `dT`
(always called with `dT = 1e-2`, which is nonzero). -/
def FiniteDiff.dP_sat_dT_coolprop (b : Baseline) (T dT : ℚ) : ℚ :=
  (b.psat (T + dT / 2) - b.psat (T - dT / 2)) / dT

/-- Source: `checks.py:12-24`, dataclass `MonotonicResult`.
`min_derivative = none` models the `float("nan")` sentinel. -/
structure MonotonicResult where
  name : String
  fluid : String
  T : ℚ
  p : List ℚ
  drho_dp : List (Option ℚ)
  fraction_positive : ℚ
  min_derivative : Option ℚ
  tol : ℚ
  supported : Bool
  passed : Bool
  near_spinodal : Bool := false
deriving DecidableEq

/-- Source: `checks.py:27-37`, dataclass `CompressibilityResult`. -/
structure CompressibilityResult where
  name : String
  fluid : String
  T : ℚ
  p : List ℚ
  kappa_T : List (Option ℚ)
  tol : ℚ
  supported : Bool
  passed : Bool
  near_spinodal : Bool := false
deriving DecidableEq

/-- Source: `checks.py:40-50`, dataclass `ClapeyronResult`.  Entries of
`rel_errors` that the code sets to `float("inf")`, and entries of
`rhs_values` set to NaN, are `none`. -/
structure ClapeyronResult where
  name : String
  fluid : String
  T_list : List ℚ
  rel_errors : List (Option ℚ)
  tol_rel : ℚ
  supported : Bool
  passed : Bool
  rhs_values : List (Option ℚ)
  lhs_values : List ℚ
deriving DecidableEq

/-- Source: `checks.py:53-64`, dataclass `SpeedOfSoundResult`. -/
structure SpeedOfSoundResult where
  name : String
  fluid : String
  T_list : List ℚ
  p_ref : ℚ
  rel_errors : List (Option ℚ)
  tol_rel : ℚ
  supported : Bool
  passed : Bool
  a2_ref : List ℚ
  a2_sur : List (Option ℚ)
deriving DecidableEq

/-- The midpoint derivative list of `check_monotonic_rho_isotherm`
(`checks.py:92-98`): for each pair of consecutive grid pressures, the
centered finite difference at their midpoint with the local spacing as
step. -/
def midpointDerivs (adapter : SurrogateAdapter) (T : ℚ) (p_vals : List ℚ) :
    List (Option ℚ) :=
  (p_vals.zip p_vals.tail).map fun q =>
    FiniteDiff.drho_dp_at_T adapter T ((q.1 + q.2) / 2) (q.2 - q.1)

/-- Source: `checks.py:67-117`, `check_monotonic_rho_isotherm` (check C1). -/
def check_monotonic_rho_isotherm (adapter : SurrogateAdapter) (fluid : String)
    (T : ℚ) (p_vals : List ℚ) (tol : ℚ) : MonotonicResult :=
  if !adapter.capabilities.supports_rho then
    { name := "C1_monotonic", fluid := fluid, T := T, p := p_vals, drho_dp := []
      fraction_positive := 0, min_derivative := none, tol := tol
      supported := false, passed := false }
  else
    let dr := midpointDerivs adapter T p_vals
    let frac_pos : ℚ :=
      if dr.length > 0 then ((dr.countP fun d => nanGt d (-tol)) : ℚ) / dr.length else 0
    let min_d := npMin dr
    let passed := dr.all fun d => nanGt d (-tol)
    let eps_guard := max (10 * tol) (1 / 10 ^ 9)
    let near_spinodal := dr.any fun d => nanInCO d 0 eps_guard
    { name := "C1_monotonic", fluid := fluid, T := T, p := p_vals, drho_dp := dr
      fraction_positive := frac_pos, min_derivative := min_d, tol := tol
      supported := true, passed := passed, near_spinodal := near_spinodal }

/-- The midpoint compressibility list of `check_compressibility`
(`checks.py:139-148`): each midpoint derivative divided by the midpoint
density floor-clamped to `1e-30`. -/
def midpointKappas (adapter : SurrogateAdapter) (T : ℚ) (p_vals : List ℚ) :
    List (Option ℚ) :=
  (p_vals.zip p_vals.tail).map fun q =>
    let pmid := (q.1 + q.2) / 2
    let drdp := FiniteDiff.drho_dp_at_T adapter T pmid (q.2 - q.1)
    let rho_mid := adapter.rho T pmid
    drdp.map fun d => d / max rho_mid (1 / 10 ^ 30)

/-- Source: `checks.py:120-162`, `check_compressibility` (check C2). -/
def check_compressibility (adapter : SurrogateAdapter) (fluid : String)
    (T : ℚ) (p_vals : List ℚ) (tol : ℚ) : CompressibilityResult :=
  if !adapter.capabilities.supports_rho then
    { name := "C2_compressibility", fluid := fluid, T := T, p := p_vals
      kappa_T := [], tol := tol, supported := false, passed := false }
  else
    let kappas := midpointKappas adapter T p_vals
    let passed := kappas.all fun k => nanGt k (-tol)
    let eps_guard := max (10 * tol) (1 / 10 ^ 9)
    let near_spinodal := kappas.any fun k => nanInCO k 0 eps_guard
    { name := "C2_compressibility", fluid := fluid, T := T, p := p_vals
      kappa_T := kappas, tol := tol, supported := true, passed := passed
      near_spinodal := near_spinodal }

/-- numpy `np.median` of a list: middle element of the sorted list, or the
average of the two middle elements for even length.  `none` on the empty
list, where `np.median` yields NaN. -/
def median (xs : List ℚ) : Option ℚ :=
  let s := xs.insertionSort (· ≤ ·)
  let n := s.length
  if n = 0 then none
  else if n % 2 = 1 then some (s.getD (n / 2) 0)
  else some ((s.getD (n / 2 - 1) 0 + s.getD (n / 2) 0) / 2)

/-- Temperature filtering of `check_clapeyron` (`checks.py:181-186`):
keep `T` with `Ttriple < T < Tcrit`; when the `PropsSI` lookups raised the
bounds fall back to `(-inf, inf)`, i.e. no filtering. -/
def filterTs (bounds : Option (ℚ × ℚ)) (Ts : List ℚ) : List ℚ :=
  match bounds with
  | some b => Ts.filter fun T => decide (b.1 < T) && decide (T < b.2)
  | none => Ts

/-- One iteration of the surrogate side of the `check_clapeyron` loop
(`checks.py:206-216`): given the current `supports` flag and a temperature,
return the recorded `rhs` value (NaN as `none`) and the updated flag.
A `none` phase split models a raising call; a zero phase density or a zero
`T * dv` models the `ZeroDivisionError` raised by the float divisions, all
captured by the same `except` that degrades `supports`. -/
def clapeyronRhs (adapter : SurrogateAdapter) (supports : Bool) (T : ℚ) :
    Option ℚ × Bool :=
  if supports then
    match adapter.phase_split_at_T T with
    | some (_, liq, vap) =>
      if liq.rho = 0 ∨ vap.rho = 0 then (none, false)
      else
        let dv := 1 / vap.rho - 1 / liq.rho
        let dh := vap.h - liq.h
        if T * dv = 0 then (none, false) else (some (dh / (T * dv)), true)
    | none => (none, false)
  else (none, false)

/-- Per-temperature relative error (`checks.py:220`):
`|lhs - rhs| / |lhs|` when `rhs` is finite and `|lhs| > 0`, else infinity
(`none`). -/
def clapeyronRel (lhs : ℚ) (rhs : Option ℚ) : Option ℚ :=
  match rhs with
  | some r => if |lhs| > 0 then some (|lhs - r| / |lhs|) else none
  | none => none

/-- The per-temperature loop of `check_clapeyron` (`checks.py:201-221`),
threading the mutable `supports` flag and accumulating, in order, the
`lhs_vals`, `rhs_vals` and `rel_err` lists. -/
def clapeyronLoop (adapter : SurrogateAdapter) (b : Baseline) (supports : Bool) :
    List ℚ → Bool × List ℚ × List (Option ℚ) × List (Option ℚ)
  | [] => (supports, [], [], [])
  | T :: rest =>
    let lhs := FiniteDiff.dP_sat_dT_coolprop b T (1 / 100)
    let rs := clapeyronRhs adapter supports T
    let rel := clapeyronRel lhs rs.1
    let tail := clapeyronLoop adapter b rs.2 rest
    (tail.1, lhs :: tail.2.1, rs.1 :: tail.2.2.1, rel :: tail.2.2.2)

/-- Source: `checks.py:165-235`, `check_clapeyron` (check C3). -/
def check_clapeyron (adapter : SurrogateAdapter) (b : Baseline) (fluid : String)
    (T_list : List ℚ) (tol_rel : ℚ) : ClapeyronResult :=
  let caps := adapter.capabilities
  let supports0 := caps.supports_phase_split && caps.supports_h && caps.supports_rho
  let Ts := filterTs b.bounds T_list
  if Ts.isEmpty then
    { name := "C3_clapeyron", fluid := fluid, T_list := [], rel_errors := []
      tol_rel := tol_rel, supported := false, passed := false
      rhs_values := [], lhs_values := [] }
  else
    let st := clapeyronLoop adapter b supports0 Ts
    let med := if st.1 then median (st.2.2.2.filterMap id) else none
    let passed :=
      if st.1 then
        match med with
        | some m => decide (m < tol_rel)
        | none => false
      else false
    { name := "C3_clapeyron", fluid := fluid, T_list := Ts
      rel_errors := st.2.2.2, tol_rel := tol_rel, supported := st.1
      passed := passed, rhs_values := st.2.2.1, lhs_values := st.2.1 }

/-- Source: `checks.py:238-282`, `check_speed_of_sound` (check C4).

Two facts of the source are decisive here:
* `supports = bool(getattr(caps, "supports_speed_of_sound", False))` at
  `checks.py:250` — but the `Capabilities` dataclass of `api.py` defines no
  `supports_speed_of_sound` attribute, so `getattr` always takes its
  default and `supports` is always `False`;
* the loop body evaluates `FiniteDiff.a_coolprop(...)` at `checks.py:254`,
  outside any `try` — but the `FiniteDiff` class of `api.py` defines no
  attribute `a_coolprop`, so the attribute access raises `AttributeError`
  on the first iteration.
Hence for a non-empty temperature list the function raises (modelled as
`Except.error`), and only for an empty list does it return a result. -/
def check_speed_of_sound (adapter : SurrogateAdapter) (fluid : String)
    (T_list : List ℚ) (p_ref tol_rel : ℚ) : Except String SpeedOfSoundResult :=
  let _ := adapter
  match T_list with
  | [] =>
    .ok { name := "C4_speed_of_sound", fluid := fluid, T_list := []
          p_ref := p_ref, rel_errors := [], tol_rel := tol_rel
          supported := false, passed := false, a2_ref := [], a2_sur := [] }
  | _ :: _ => .error "AttributeError: type object FiniteDiff has no attribute a_coolprop"

/-- CPython `min` over a list of possibly-NaN floats: fold keeping the
current value unless the next element compares strictly smaller (any
comparison involving NaN is false).  The outer `none` is Python's `None`
for the empty-list guard `min(r.kappa_T) if r.kappa_T else None`. -/
def pyMin (xs : List (Option ℚ)) : Option (Option ℚ) :=
  match xs with
  | [] => none
  | x :: rest =>
    some (rest.foldl (fun acc y =>
      match y, acc with
      | some a, some b => if a < b then y else acc
      | _, _ => acc) x)

/-- Source: `score.py:13-20`, dataclass `CheckSummary`, with the
check-specific `details` payload as a type parameter. -/
structure CheckSummary (D : Type) where
  name : String
  supported : Bool
  passed : Bool
  pass_ratio : ℚ
  details : D
  severity : String
deriving DecidableEq

/-- Source: `score.py:23-28`, `_severity_from_flags`. -/
def severityFromFlags (passed warn_flag : Bool) : String :=
  if passed && !warn_flag then "info"
  else if passed && warn_flag then "warn"
  else "fail"

/-- `float(np.mean(passes)) if passes else 0.0` over a list of booleans:
the fraction of `true` entries. -/
def passRatio (passes : List Bool) : ℚ :=
  if passes.isEmpty then 0 else ((passes.count true : ℚ)) / passes.length

/-- `all(passes) if passes else False`. -/
def allOrFalse (passes : List Bool) : Bool :=
  if passes.isEmpty then false else passes.all id

/-- One `per_T` entry of the C1 summary details (`score.py:37-47`). -/
structure MonoDetailEntry where
  T : ℚ
  fraction_positive : ℚ
  min_derivative : Option ℚ
  passed : Bool
  near_spinodal : Bool
  p : List ℚ
  drho_dp : List (Option ℚ)
deriving DecidableEq

/-- Source: `score.py:31-57`, `_summarize_monotonic`. -/
def summarizeMonotonic (results : List MonotonicResult) :
    CheckSummary (List MonoDetailEntry) :=
  let supported := results.any (·.supported)
  let passes := (results.filter (·.supported)).map (·.passed)
  let warn_flag := results.any (·.near_spinodal)
  let detail := results.map fun r =>
    { T := r.T, fraction_positive := r.fraction_positive
      min_derivative := r.min_derivative, passed := r.passed
      near_spinodal := r.near_spinodal, p := r.p, drho_dp := r.drho_dp }
  { name := "C1_monotonic", supported := supported, passed := allOrFalse passes
    pass_ratio := passRatio passes, details := detail
    severity := severityFromFlags (allOrFalse passes) warn_flag }

/-- One `per_T` entry of the C2 summary details (`score.py:66-75`).
`min_kappa` is `min(r.kappa_T) if r.kappa_T else None`. -/
structure CompressDetailEntry where
  T : ℚ
  passed : Bool
  min_kappa : Option (Option ℚ)
  near_spinodal : Bool
  p : List ℚ
  kappa_T : List (Option ℚ)
deriving DecidableEq

/-- Source: `score.py:60-85`, `_summarize_compress`. -/
def summarizeCompress (results : List CompressibilityResult) :
    CheckSummary (List CompressDetailEntry) :=
  let supported := results.any (·.supported)
  let passes := (results.filter (·.supported)).map (·.passed)
  let warn_flag := results.any (·.near_spinodal)
  let detail := results.map fun r =>
    { T := r.T, passed := r.passed, min_kappa := pyMin r.kappa_T
      near_spinodal := r.near_spinodal, p := r.p, kappa_T := r.kappa_T }
  { name := "C2_compressibility", supported := supported
    passed := allOrFalse passes, pass_ratio := passRatio passes
    details := detail
    severity := severityFromFlags (allOrFalse passes) warn_flag }

/-- Median of the finite relative errors of one `ClapeyronResult`
(`score.py:92-94`): `np.median([finite entries] or [inf])`, so `none`
(infinity) exactly when no finite entry exists. -/
def medianFinite (errs : List (Option ℚ)) : Option ℚ :=
  median (errs.filterMap id)

/-- One `per_run` entry of the C3 summary details (`score.py:97-107`). -/
structure ClapDetailEntry where
  T_list : List ℚ
  median_rel_error : Option ℚ
  passed : Bool
  lhs : List ℚ
  rhs : List (Option ℚ)
deriving DecidableEq

/-- The C3 summary details (`score.py:96-110`). -/
structure ClapDetail where
  per_run : List ClapDetailEntry
  median_errors_all : List (Option ℚ)
deriving DecidableEq

/-- Source: `score.py:88-115`, `_summarize_clapeyron`. -/
def summarizeClapeyron (results : List ClapeyronResult) :
    CheckSummary ClapDetail :=
  let supported := results.any (·.supported)
  let passes := (results.filter (·.supported)).map (·.passed)
  let med_errs := results.map fun r => medianFinite r.rel_errors
  let detail : ClapDetail :=
    { per_run := results.map fun r =>
        { T_list := r.T_list, median_rel_error := medianFinite r.rel_errors
          passed := r.passed, lhs := r.lhs_values, rhs := r.rhs_values }
      median_errors_all := med_errs }
  let sev := if allOrFalse passes then "info" else "fail"
  { name := "C3_clapeyron", supported := supported, passed := allOrFalse passes
    pass_ratio := passRatio passes, details := detail, severity := sev }

/-- One `per_run` entry of the C4 summary details (`score.py:123-134`). -/
structure C4DetailEntry where
  T_list : List ℚ
  p_ref : ℚ
  median_rel_error : Option ℚ
  passed : Bool
  a2_ref : List ℚ
  a2_sur : List (Option ℚ)
deriving DecidableEq

/-- Source: `score.py:118-140`, `_summarize_c4`. -/
def summarizeC4 (results : List SpeedOfSoundResult) :
    CheckSummary (List C4DetailEntry) :=
  let supported := results.any (·.supported)
  let passes := (results.filter (·.supported)).map (·.passed)
  let detail := results.map fun r =>
    { T_list := r.T_list, p_ref := r.p_ref
      median_rel_error := medianFinite r.rel_errors, passed := r.passed
      a2_ref := r.a2_ref, a2_sur := r.a2_sur }
  let sev :=
    if allOrFalse passes then "info" else if supported then "warn" else "info"
  { name := "C4_speed_of_sound", supported := supported
    passed := allOrFalse passes, pass_ratio := passRatio passes
    details := detail, severity := sev }

/-- Arithmetic mean `np.mean` of a rational list. -/
def listMean (xs : List ℚ) : ℚ := xs.sum / xs.length

/-- Source: `score.py:160-161`: the composite score computed from the
`(supported, pass_ratio)` pairs of the summaries the code puts in the list
(`[c1, c2, c3]`): `100 * mean` of the ratios of the supported ones, `0`
when none is supported. -/
def compositeScore (cs : List (Bool × ℚ)) : ℚ :=
  let ratios := (cs.filter (·.1)).map (·.2)
  if ratios.isEmpty then 0 else 100 * listMean ratios

/-- Source: `score.py:164-167`: the `Core` badge, the mean pass ratio of
the supported summaries among `[c1, c2, c3]`, `0` if none. -/
def badgeCore (cs : List (Bool × ℚ)) : ℚ :=
  let core := cs.filter (·.1)
  if core.isEmpty then 0 else listMean (core.map (·.2))

/-- Source: `score.py:165-168`: the `Plus` badge, `np.mean` over `[c4]`
if `c4` is supported, else `0`. -/
def badgePlus (c4 : Bool × ℚ) : ℚ :=
  if c4.1 then listMean [c4.2] else 0

/-- The run summary built by `aggregate_checks_to_summary`
(`score.py:171-213`), with every key of the Python dict as a field.  The
ambient `datetime.now(...)` string and the two `platform` strings are
explicit inputs of the embedding. -/
structure RunSummary where
  schema_version : String
  datetime_utc : String
  system_python : String
  system_platform : String
  adapter : String
  fluid : String
  grid : String
  tol_monotonic : ℚ
  tol_clap : ℚ
  c1 : CheckSummary (List MonoDetailEntry)
  c2 : CheckSummary (List CompressDetailEntry)
  c3 : CheckSummary ClapDetail
  c4 : CheckSummary (List C4DetailEntry)
  badge_core : ℚ
  badge_plus : ℚ
  composite_score : ℚ
deriving DecidableEq

/-- Source: `score.py:143-214`, `aggregate_checks_to_summary`.
`now_utc` models the `datetime.now(timezone.utc)` reading of the
invocation, `python_version` and `platform_string` the two `platform`
queries; `results_c4 = []` models the `None` default (`results_c4 or []`). -/
def aggregate_checks_to_summary (now_utc python_version platform_string : String)
    (adapter_name fluid grid : String)
    (results_monotonic : List MonotonicResult)
    (results_compress : List CompressibilityResult)
    (results_clapeyron : List ClapeyronResult)
    (tol_monotonic tol_clap : ℚ)
    (results_c4 : List SpeedOfSoundResult) : RunSummary :=
  let c1 := summarizeMonotonic results_monotonic
  let c2 := summarizeCompress results_compress
  let c3 := summarizeClapeyron results_clapeyron
  let c4 := summarizeC4 results_c4
  let corePairs := [(c1.supported, c1.pass_ratio), (c2.supported, c2.pass_ratio),
    (c3.supported, c3.pass_ratio)]
  { schema_version := "1.1"
    datetime_utc := now_utc
    system_python := python_version
    system_platform := platform_string
    adapter := adapter_name
    fluid := fluid
    grid := grid
    tol_monotonic := tol_monotonic
    tol_clap := tol_clap
    c1 := c1, c2 := c2, c3 := c3, c4 := c4
    badge_core := badgeCore corePairs
    badge_plus := badgePlus (c4.supported, c4.pass_ratio)
    composite_score := compositeScore corePairs }

/-- The run summary with its timestamp field erased, used to compare two
invocations of the aggregator made at different wall-clock times. -/
def stripTime (s : RunSummary) : RunSummary := { s with datetime_utc := "" }

/-- Refinement definition following the spec's words (not the source):
"one composite score in [0,100] = 100 × mean of pass ratios over all
*supported* checks (unsupported checks are excluded from the mean
entirely)", to be fed the `(supported, pass_ratio)` pairs of all four
checks C1–C4. -/
def compositeScoreSpec (cs : List (Bool × ℚ)) : ℚ :=
  let rs := cs.filterMap fun c => if c.1 then some c.2 else none
  if rs.isEmpty then 0 else 100 * (rs.sum / rs.length)

/-- Refinement definition following the claim's words: the centered
derivative at the midpoint of a grid interval `[p1, p2]`,
`(rho(pmid + dp/2) - rho(pmid - dp/2)) / dp` with `pmid` the midpoint and
`dp` the local spacing `p2 - p1`. -/
def specMidpointDeriv (a : SurrogateAdapter) (T p1 p2 : ℚ) : ℚ :=
  let pmid := (p1 + p2) / 2
  let dp := p2 - p1
  (a.rho T (pmid + dp / 2) - a.rho T (pmid - dp / 2)) / dp

/-- Refinement definition following the claim's words for C2: the midpoint
compressibility `κ = (∂ρ/∂p) / max(ρ(T, pmid), ε)` with the density
floor-clamped to `ε = 1e-30`. -/
def specMidpointKappa (a : SurrogateAdapter) (T p1 p2 : ℚ) : ℚ :=
  specMidpointDeriv a T p1 p2 / max (a.rho T ((p1 + p2) / 2)) (1 / 10 ^ 30)

/-- A small concrete adapter used to instantiate theorems: density equal to
the pressure, all optional calls raising, default capabilities. -/
def sampleAdapter : SurrogateAdapter :=
  { fluid := "CO2", rho := fun _ p => p, h := fun _ _ => 0
    phase_split_at_T := fun _ => none, speed_of_sound := fun _ _ => none
    capabilities := {} }

/-- A concrete adapter whose phase split always raises but whose
capability record claims full support, used to instantiate the graceful
degradation theorem. -/
def brokenSplitAdapter : SurrogateAdapter :=
  { fluid := "CO2", rho := fun _ p => p, h := fun T _ => T
    phase_split_at_T := fun _ => none, speed_of_sound := fun _ _ => none
    capabilities := { supports_rho := true, supports_h := true
                      supports_phase_split := true } }

/-- A concrete baseline with no valid-range filtering (the `PropsSI`
bounds lookup raised) and saturation pressure equal to the temperature. -/
def sampleBaseline : Baseline := { bounds := none, psat := fun T => T }

/-- A concrete supported, passing C1 result record. -/
def passMono : MonotonicResult :=
  { name := "C1_monotonic", fluid := "CO2", T := 280, p := [100000, 200000]
    drho_dp := [some 1], fraction_positive := 1, min_derivative := some 1
    tol := 1 / 1000000, supported := true, passed := true
    near_spinodal := false }

/-- A concrete supported, failing C1 result record. -/
def failMono : MonotonicResult :=
  { passMono with
    passed := false
    fraction_positive := 0
    drho_dp := [some (-1)]
    min_derivative := some (-1) }

/-- A concrete supported, failing C4 result record. -/
def supFailSos : SpeedOfSoundResult :=
  { name := "C4_speed_of_sound", fluid := "CO2", T_list := [280]
    p_ref := 100000, rel_errors := [some 1], tol_rel := 1 / 5
    supported := true, passed := false, a2_ref := [100], a2_sur := [some 36] }

/-! ## Helper lemmas -/

/-- The composite score of `score.py:160-161` is `100 ×` the `Core` badge
of `score.py:164-167`: both are computed from the same filtered list. -/
theorem compositeScore_eq_hundred_mul_badgeCore (cs : List (Bool × ℚ)) :
    compositeScore cs = 100 * badgeCore cs := by
  unfold compositeScore badgeCore listMean
  cases h : cs.filter (·.1) with
  | nil => simp [h]
  | cons x xs => simp [h]

/-- The spec's filterMap formulation of "pass ratios of the supported
checks" agrees with the source's filter-then-project formulation. -/
theorem compositeScoreSpec_eq_compositeScore (cs : List (Bool × ℚ)) :
    compositeScoreSpec cs = compositeScore cs := by
  unfold compositeScoreSpec compositeScore listMean
  have h : (cs.filterMap fun c => if c.1 then some c.2 else none)
      = (cs.filter (·.1)).map (·.2) := by
    induction cs with
    | nil => rfl
    | cons x xs ih =>
      cases hx : x.1 <;>
        simp [List.filterMap_cons, List.filter_cons, hx, ih]
  rw [h]

/-- A pass ratio always lies in `[0, 1]`. -/
theorem passRatio_mem (l : List Bool) : 0 ≤ passRatio l ∧ passRatio l ≤ 1 := by
  unfold passRatio
  cases l with
  | nil => simp
  | cons x xs =>
    have hlen : (0 : ℚ) < ((x :: xs).length : ℚ) := by
      exact_mod_cast Nat.succ_pos xs.length
    have hcount : ((List.count true (x :: xs) : ℚ)) ≤ ((x :: xs).length : ℚ) := by
      exact_mod_cast List.count_le_length true (x :: xs)
    constructor
    · simp only [List.isEmpty_cons, Bool.false_eq_true, if_false]
      positivity
    · simp only [List.isEmpty_cons, Bool.false_eq_true, if_false]
      rw [div_le_one hlen]
      exact hcount

/-- The mean of a nonempty list of values in `[0, 1]` lies in `[0, 1]`. -/
theorem listMean_mem (xs : List ℚ) (hne : xs ≠ [])
    (h : ∀ x ∈ xs, 0 ≤ x ∧ x ≤ 1) : 0 ≤ listMean xs ∧ listMean xs ≤ 1 := by
  unfold listMean
  have hlen : (0 : ℚ) < (xs.length : ℚ) := by
    exact_mod_cast List.length_pos.mpr hne
  have hsum0 : 0 ≤ xs.sum := List.sum_nonneg fun x hx => (h x hx).1
  have hsum1 : xs.sum ≤ (xs.length : ℚ) := by
    have := List.sum_le_card_nsmul xs 1 fun x hx => (h x hx).2
    simpa using this
  constructor
  · positivity
  · rw [div_le_one hlen]
    exact hsum1

/-- The composite score of any `(supported, pass_ratio)` pairs whose
ratios lie in `[0, 1]` lies in `[0, 100]`. -/
theorem compositeScore_mem (cs : List (Bool × ℚ))
    (h : ∀ c ∈ cs, 0 ≤ c.2 ∧ c.2 ≤ 1) :
    0 ≤ compositeScore cs ∧ compositeScore cs ≤ 100 := by
  unfold compositeScore
  cases hf : (cs.filter (·.1)).map (·.2) with
  | nil => simp [hf]
  | cons x xs =>
    have hne : (cs.filter (·.1)).map (·.2) ≠ [] := by simp [hf]
    have hmem : ∀ y ∈ (cs.filter (·.1)).map (·.2), 0 ≤ y ∧ y ≤ 1 := by
      intro y hy
      obtain ⟨c, hc, rfl⟩ := List.mem_map.1 hy
      exact h c (List.mem_of_mem_filter hc)
    have hm := listMean_mem _ hne hmem
    rw [hf] at hm
    simp only [hf, List.isEmpty_cons, Bool.false_eq_true, if_false]
    constructor
    · linarith [hm.1]
    · linarith [hm.2]

/-- Projection of `summarizeMonotonic`: its pass ratio is the source's
`np.mean` over the passed flags of supported results. -/
theorem summarizeMonotonic_pass_ratio (rs : List MonotonicResult) :
    (summarizeMonotonic rs).pass_ratio
      = passRatio ((rs.filter (·.supported)).map (·.passed)) := rfl

/-- Projection of `summarizeCompress`. -/
theorem summarizeCompress_pass_ratio (rs : List CompressibilityResult) :
    (summarizeCompress rs).pass_ratio
      = passRatio ((rs.filter (·.supported)).map (·.passed)) := rfl

/-- Projection of `summarizeClapeyron`. -/
theorem summarizeClapeyron_pass_ratio (rs : List ClapeyronResult) :
    (summarizeClapeyron rs).pass_ratio
      = passRatio ((rs.filter (·.supported)).map (·.passed)) := rfl

/-- The composite score field of the aggregator output, read off the
record literal of `score.py:171-213`. -/
theorem aggregate_composite_score (now pv pl an f g : String)
    (rm : List MonotonicResult) (rc : List CompressibilityResult)
    (rcl : List ClapeyronResult) (t1 t2 : ℚ) (r4 : List SpeedOfSoundResult) :
    (aggregate_checks_to_summary now pv pl an f g rm rc rcl t1 t2 r4).composite_score
      = compositeScore
          [((summarizeMonotonic rm).supported, (summarizeMonotonic rm).pass_ratio),
           ((summarizeCompress rc).supported, (summarizeCompress rc).pass_ratio),
           ((summarizeClapeyron rcl).supported, (summarizeClapeyron rcl).pass_ratio)] := rfl

/-- Mapping then testing all elements is testing the composite on the
original list. -/
theorem all_map_comp {A B : Type} (f : A → B) (l : List A) (p : B → Bool) :
    (l.map f).all p = l.all fun x => p (f x) := by
  induction l with
  | nil => rfl
  | cons x xs ih => simp [ih]

/-- Mapping then testing some element is testing the composite on the
original list. -/
theorem any_map_comp {A B : Type} (f : A → B) (l : List A) (p : B → Bool) :
    (l.map f).any p = l.any fun x => p (f x) := by
  induction l with
  | nil => rfl
  | cons x xs ih => simp [ih]

/-- A grid of `n` pressures has `n - 1` midpoints. -/
theorem midpointDerivs_length (a : SurrogateAdapter) (T : ℚ) (l : List ℚ) :
    (midpointDerivs a T l).length = l.length - 1 := by
  simp only [midpointDerivs, List.length_map, List.length_zip, List.length_tail]
  omega

/-- The `i`-th midpoint derivative is the centered difference between
grid points `i` and `i + 1`. -/
theorem midpointDerivs_getElem (a : SurrogateAdapter) (T : ℚ) (l : List ℚ)
    (i : ℕ) (h : i < (midpointDerivs a T l).length) :
    (midpointDerivs a T l)[i]
      = FiniteDiff.drho_dp_at_T a T ((l.getD i 0 + l.getD (i + 1) 0) / 2)
          (l.getD (i + 1) 0 - l.getD i 0) := by
  have hlen : i + 1 < l.length := by
    rw [midpointDerivs_length] at h
    omega
  have h1 : i < l.length := by omega
  simp only [midpointDerivs, List.getElem_map, List.getElem_zip, List.getElem_tail,
    List.getD_eq_getElem l 0 h1, List.getD_eq_getElem l 0 hlen]

/-- When all consecutive grid points differ, the local spacing at any
interior index is nonzero. -/
theorem adjacent_ne (l : List ℚ) (i : ℕ) (hlen : i + 1 < l.length)
    (hadj : (l.zip l.tail).all (fun q => decide (q.1 ≠ q.2)) = true) :
    l.getD (i + 1) 0 - l.getD i 0 ≠ 0 := by
  have h1 : i < l.length := by omega
  have hz : i < (l.zip l.tail).length := by
    simp only [List.length_zip, List.length_tail]
    omega
  have hmem := List.getElem_mem hz
  have := List.all_eq_true.1 hadj _ hmem
  rw [List.getElem_zip, List.getElem_tail] at this
  simp only [decide_eq_true_eq] at this
  rw [List.getD_eq_getElem l 0 h1, List.getD_eq_getElem l 0 hlen]
  exact sub_ne_zero_of_ne (Ne.symm this)

/-- On a grid with pairwise-distinct consecutive points the source's
midpoint derivative list is exactly the indexed list of the claim's
centered-difference values. -/
theorem midpointDerivs_eq_range (a : SurrogateAdapter) (T : ℚ) (l : List ℚ)
    (hadj : (l.zip l.tail).all (fun q => decide (q.1 ≠ q.2)) = true) :
    midpointDerivs a T l
      = (List.range (l.length - 1)).map fun k =>
          some (specMidpointDeriv a T (l.getD k 0) (l.getD (k + 1) 0)) := by
  apply List.ext_getElem
  · simp [midpointDerivs_length]
  · intro i h1 h2
    have hlen : i + 1 < l.length := by
      rw [midpointDerivs_length] at h1
      omega
    rw [midpointDerivs_getElem a T l i h1, List.getElem_map, List.getElem_range]
    have hne := adjacent_ne l i hlen hadj
    simp only [FiniteDiff.drho_dp_at_T, specMidpointDeriv, if_neg hne]

/-- A grid of `n` pressures has `n - 1` midpoint compressibilities. -/
theorem midpointKappas_length (a : SurrogateAdapter) (T : ℚ) (l : List ℚ) :
    (midpointKappas a T l).length = l.length - 1 := by
  simp only [midpointKappas, List.length_map, List.length_zip, List.length_tail]
  omega

/-- The `i`-th midpoint compressibility is the centered difference between
grid points `i` and `i + 1` divided by the clamped midpoint density. -/
theorem midpointKappas_getElem (a : SurrogateAdapter) (T : ℚ) (l : List ℚ)
    (i : ℕ) (h : i < (midpointKappas a T l).length) :
    (midpointKappas a T l)[i]
      = (FiniteDiff.drho_dp_at_T a T ((l.getD i 0 + l.getD (i + 1) 0) / 2)
          (l.getD (i + 1) 0 - l.getD i 0)).map fun d =>
            d / max (a.rho T ((l.getD i 0 + l.getD (i + 1) 0) / 2)) (1 / 10 ^ 30) := by
  have hlen : i + 1 < l.length := by
    rw [midpointKappas_length] at h
    omega
  have h1 : i < l.length := by omega
  simp only [midpointKappas, List.getElem_map, List.getElem_zip, List.getElem_tail,
    List.getD_eq_getElem l 0 h1, List.getD_eq_getElem l 0 hlen]

/-- On a grid with pairwise-distinct consecutive points the source's
midpoint compressibility list is exactly the indexed list of the claim's
normalized centered-difference values. -/
theorem midpointKappas_eq_range (a : SurrogateAdapter) (T : ℚ) (l : List ℚ)
    (hadj : (l.zip l.tail).all (fun q => decide (q.1 ≠ q.2)) = true) :
    midpointKappas a T l
      = (List.range (l.length - 1)).map fun k =>
          some (specMidpointKappa a T (l.getD k 0) (l.getD (k + 1) 0)) := by
  apply List.ext_getElem
  · simp [midpointKappas_length]
  · intro i h1 h2
    have hlen : i + 1 < l.length := by
      rw [midpointKappas_length] at h1
      omega
    rw [midpointKappas_getElem a T l i h1, List.getElem_map, List.getElem_range]
    have hne := adjacent_ne l i hlen hadj
    simp only [FiniteDiff.drho_dp_at_T, specMidpointKappa, specMidpointDeriv, if_neg hne]
    rfl

/-- Once the `supports` flag of the Clapeyron loop is down it stays down. -/
theorem clapeyronLoop_supports_false (a : SurrogateAdapter) (b : Baseline)
    (ts : List ℚ) : (clapeyronLoop a b false ts).1 = false := by
  induction ts with
  | nil => rfl
  | cons T rest ih =>
    simp only [clapeyronLoop, clapeyronRhs, Bool.false_eq_true, if_false]
    exact ih

/-- The Clapeyron loop records one `lhs`, one `rhs` and one relative error
per evaluated temperature. -/
theorem clapeyronLoop_lengths (a : SurrogateAdapter) (b : Baseline)
    (s : Bool) (ts : List ℚ) :
    (clapeyronLoop a b s ts).2.1.length = ts.length
      ∧ (clapeyronLoop a b s ts).2.2.1.length = ts.length
      ∧ (clapeyronLoop a b s ts).2.2.2.length = ts.length := by
  induction ts generalizing s with
  | nil => exact ⟨rfl, rfl, rfl⟩
  | cons T rest ih =>
    obtain ⟨i1, i2, i3⟩ := ih (clapeyronRhs a s T).2
    simp only [clapeyronLoop, List.length_cons]
    exact ⟨by rw [i1], by rw [i2], by rw [i3]⟩

/-- A raising phase split records no `rhs` and downgrades `supports`,
whatever the incoming flag. -/
theorem clapeyronRhs_fail (a : SurrogateAdapter) (s : Bool) (T : ℚ)
    (hfail : a.phase_split_at_T T = none) : clapeyronRhs a s T = (none, false) := by
  cases s <;> simp [clapeyronRhs, hfail]

/-- If the phase split raises at the temperature at position `|l1|` of the
evaluated list, the loop ends unsupported and the relative error recorded
at that position is infinite. -/
theorem clapeyronLoop_fail_at (a : SurrogateAdapter) (b : Baseline)
    (s : Bool) (l1 : List ℚ) (Tbad : ℚ) (l2 : List ℚ)
    (hfail : a.phase_split_at_T Tbad = none) :
    (clapeyronLoop a b s (l1 ++ Tbad :: l2)).1 = false
      ∧ (clapeyronLoop a b s (l1 ++ Tbad :: l2)).2.2.2.getD l1.length (some 0) = none := by
  induction l1 generalizing s with
  | nil =>
    simp only [List.nil_append, clapeyronLoop, clapeyronRhs_fail a s Tbad hfail]
    exact ⟨clapeyronLoop_supports_false a b l2, rfl⟩
  | cons x xs ih =>
    obtain ⟨i1, i2⟩ := ih (clapeyronRhs a s x).2
    simp only [List.cons_append, clapeyronLoop, List.length_cons, List.getD_cons_succ]
    exact ⟨i1, i2⟩

/-! ## Claim theorems -/

/-- C9: the `Capabilities` record of `api.py` carries exactly the three
flags `supports_rho`, `supports_h`, `supports_phase_split` — it is fully
determined by them, so there is no fourth `supports_speed_of_sound` flag,
and the keyword construction both bundled adapters attempt
(`Capabilities(..., supports_speed_of_sound=True)`) has no field to land
in (it raises `TypeError` in Python). -/
theorem c9_capabilities_three_fields (c : Capabilities) :
    c = { supports_rho := c.supports_rho, supports_h := c.supports_h
          supports_phase_split := c.supports_phase_split } := rfl

/-- C8: contrary to the claim, `check_speed_of_sound` does not return a
result for a non-empty temperature list: its loop body evaluates
`FiniteDiff.a_coolprop`, an attribute the `FiniteDiff` class of `api.py`
does not define, so the call raises `AttributeError` on the first
iteration — before any baseline value can be recorded. -/
theorem c8_speed_of_sound_raises :
    check_speed_of_sound sampleAdapter "CO2" [300] (10 ^ 5) (1 / 5) =
      Except.error
        "AttributeError: type object FiniteDiff has no attribute a_coolprop" := rfl

/-- C5: for an adapter supporting density and a single-point pressure grid,
`check_monotonic_rho_isotherm` yields no midpoints: an empty derivative
list, `fraction_positive = 0` (not NaN), and `passed = true` by the
vacuous `np.all` over an empty array. -/
theorem c5_single_point_vacuous (a : SurrogateAdapter) (fluid : String)
    (T p tol : ℚ) (hsup : a.capabilities.supports_rho = true)
    (r : MonotonicResult)
    (hr : r = check_monotonic_rho_isotherm a fluid T [p] tol) :
    r.drho_dp = [] ∧ r.fraction_positive = 0 ∧ r.passed = true := by
  subst hr
  simp [check_monotonic_rho_isotherm, hsup, midpointDerivs]

/-- Closed instance of `c5_single_point_vacuous` at a concrete adapter
and grid. -/
theorem c5_single_point_vacuous_witness :
    (check_monotonic_rho_isotherm sampleAdapter "CO2" 300 [5] (1 / 1000000)).drho_dp = []
      ∧ (check_monotonic_rho_isotherm sampleAdapter "CO2" 300 [5] (1 / 1000000)).fraction_positive = 0
      ∧ (check_monotonic_rho_isotherm sampleAdapter "CO2" 300 [5] (1 / 1000000)).passed = true :=
  c5_single_point_vacuous sampleAdapter "CO2" 300 5 (1 / 1000000) rfl _ rfl

/-- C10: the `composite_score` field of the aggregator output is exactly
`100 ×` its `Core` badge (both range over the supported checks among
C1, C2, C3 only), and the C4 result collection never influences the
composite score. -/
theorem c10_composite_is_core_badge (now pv pl an f g : String)
    (rm : List MonotonicResult) (rc : List CompressibilityResult)
    (rcl : List ClapeyronResult) (t1 t2 : ℚ)
    (r4 r4' : List SpeedOfSoundResult) :
    (aggregate_checks_to_summary now pv pl an f g rm rc rcl t1 t2 r4).composite_score
        = 100 * (aggregate_checks_to_summary now pv pl an f g rm rc rcl t1 t2 r4).badge_core
      ∧ (aggregate_checks_to_summary now pv pl an f g rm rc rcl t1 t2 r4).composite_score
        = (aggregate_checks_to_summary now pv pl an f g rm rc rcl t1 t2 r4').composite_score := by
  exact ⟨compositeScore_eq_hundred_mul_badgeCore _, rfl⟩

/-- C3 (counterexample): the aggregator output is not identical across two
invocations on the same check result collections, because the summary
embeds the wall-clock `datetime.now` reading: two invocations one second
apart differ. -/
theorem c3_not_identical_counterexample :
    aggregate_checks_to_summary "2025-01-01T00:00:00Z" "3.11.0" "Linux"
        "CoolPropAdapter" "CO2" "g" [] [] [] (1 / 1000000) (1 / 10) []
      ≠ aggregate_checks_to_summary "2025-01-01T00:00:01Z" "3.11.0" "Linux"
        "CoolPropAdapter" "CO2" "g" [] [] [] (1 / 1000000) (1 / 10) [] := by
  decide

/-- C3 (amended): apart from the embedded timestamp, the aggregator is a
pure, deterministic function of its inputs — two invocations on the same
check result collections (within one interpreter, so with the same
platform strings) agree on every other field of the summary. -/
theorem c3_deterministic_modulo_timestamp (now1 now2 pv pl an f g : String)
    (rm : List MonotonicResult) (rc : List CompressibilityResult)
    (rcl : List ClapeyronResult) (t1 t2 : ℚ) (r4 : List SpeedOfSoundResult) :
    stripTime (aggregate_checks_to_summary now1 pv pl an f g rm rc rcl t1 t2 r4)
      = stripTime (aggregate_checks_to_summary now2 pv pl an f g rm rc rcl t1 t2 r4) := rfl

/-- C1 (counterexample): the composite score is not `100 ×` the mean of
the pass ratios over all supported checks including C4.  With one
supported passing C1 collection and one supported failing C4 collection,
the claim's formula gives `100 × (1 + 0)/2 = 50`, but the code
(`score.py:160`, which ranges over `[c1, c2, c3]` only) yields `100`. -/
theorem c1_composite_includes_c4_counterexample :
    ¬ ((aggregate_checks_to_summary "t" "py" "pl" "a" "CO2" "g" [passMono] [] []
          (1 / 1000000) (1 / 10) [supFailSos]).composite_score
        = compositeScoreSpec
            [((summarizeMonotonic [passMono]).supported,
              (summarizeMonotonic [passMono]).pass_ratio),
             ((summarizeCompress []).supported, (summarizeCompress []).pass_ratio),
             ((summarizeClapeyron []).supported, (summarizeClapeyron []).pass_ratio),
             ((summarizeC4 [supFailSos]).supported, (summarizeC4 [supFailSos]).pass_ratio)]) := by
  intro h
  rw [aggregate_composite_score] at h
  norm_num [compositeScore, compositeScoreSpec, summarizeMonotonic, summarizeCompress,
    summarizeClapeyron, summarizeC4, passRatio, passMono, supFailSos, listMean,
    allOrFalse, List.filter, List.filterMap] at h

/-- C1 (amended): the composite score equals `100 ×` the mean of the pass
ratios of the supported checks among C1, C2, C3 only, with unsupported
checks excluded from the mean entirely — the C4 collection never enters
the composite. -/
theorem c1_composite_over_core_checks (now pv pl an f g : String)
    (rm : List MonotonicResult) (rc : List CompressibilityResult)
    (rcl : List ClapeyronResult) (t1 t2 : ℚ) (r4 : List SpeedOfSoundResult) :
    (aggregate_checks_to_summary now pv pl an f g rm rc rcl t1 t2 r4).composite_score
      = compositeScoreSpec
          [((summarizeMonotonic rm).supported, (summarizeMonotonic rm).pass_ratio),
           ((summarizeCompress rc).supported, (summarizeCompress rc).pass_ratio),
           ((summarizeClapeyron rcl).supported, (summarizeClapeyron rcl).pass_ratio)] := by
  rw [aggregate_composite_score, compositeScoreSpec_eq_compositeScore]

/-- C2 (amended): for every input the composite score lies in `[0, 100]`,
and it is `0` whenever no check is supported.  (The converse direction of
the claim's "exactly when" fails; see the counterexample.) -/
theorem c2_composite_bounds (now pv pl an f g : String)
    (rm : List MonotonicResult) (rc : List CompressibilityResult)
    (rcl : List ClapeyronResult) (t1 t2 : ℚ) (r4 : List SpeedOfSoundResult) :
    0 ≤ (aggregate_checks_to_summary now pv pl an f g rm rc rcl t1 t2 r4).composite_score
      ∧ (aggregate_checks_to_summary now pv pl an f g rm rc rcl t1 t2 r4).composite_score ≤ 100
      ∧ (((summarizeMonotonic rm).supported = false
            ∧ (summarizeCompress rc).supported = false
            ∧ (summarizeClapeyron rcl).supported = false
            ∧ (summarizeC4 r4).supported = false) →
          (aggregate_checks_to_summary now pv pl an f g rm rc rcl t1 t2 r4).composite_score = 0) := by
  have hmem : ∀ c ∈
      [((summarizeMonotonic rm).supported, (summarizeMonotonic rm).pass_ratio),
       ((summarizeCompress rc).supported, (summarizeCompress rc).pass_ratio),
       ((summarizeClapeyron rcl).supported, (summarizeClapeyron rcl).pass_ratio)],
      0 ≤ c.2 ∧ c.2 ≤ 1 := by
    intro c hc
    simp only [List.mem_cons, List.not_mem_nil, or_false] at hc
    rcases hc with rfl | rfl | rfl
    · rw [summarizeMonotonic_pass_ratio]
      exact passRatio_mem _
    · rw [summarizeCompress_pass_ratio]
      exact passRatio_mem _
    · rw [summarizeClapeyron_pass_ratio]
      exact passRatio_mem _
  have hb := compositeScore_mem _ hmem
  refine ⟨?_, ?_, ?_⟩
  · rw [aggregate_composite_score]
    exact hb.1
  · rw [aggregate_composite_score]
    exact hb.2
  · rintro ⟨h1, h2, h3, -⟩
    rw [aggregate_composite_score, h1, h2, h3]
    rfl

/-- Closed instance of `c2_composite_bounds`: with no supported check
(all collections empty) the composite score is `0`. -/
theorem c2_composite_bounds_witness :
    (aggregate_checks_to_summary "t" "py" "pl" "a" "CO2" "g" [] [] []
        (1 / 1000000) (1 / 10) []).composite_score = 0 :=
  (c2_composite_bounds "t" "py" "pl" "a" "CO2" "g" [] [] []
      (1 / 1000000) (1 / 10) []).2.2 ⟨rfl, rfl, rfl, rfl⟩

/-- C2 (counterexample to "exactly when"): a supported but failing C1
collection makes the composite score `0` even though a check is
supported, so `composite = 0` does not imply "no check supported". -/
theorem c2_zero_with_supported_check_counterexample :
    (aggregate_checks_to_summary "t" "py" "pl" "a" "CO2" "g" [failMono] [] []
          (1 / 1000000) (1 / 10) []).composite_score = 0
      ∧ (summarizeMonotonic [failMono]).supported = true := by
  constructor
  · rw [aggregate_composite_score]
    norm_num [compositeScore, summarizeMonotonic, summarizeCompress, summarizeClapeyron,
      passRatio, failMono, passMono, listMean, List.filter]
  · rfl

/-- C4: for an adapter supporting density and a pressure grid of at least
two pairwise-distinct consecutive points, `check_monotonic_rho_isotherm`
computes at each midpoint between consecutive pressures the centered
derivative `(rho(pmid + dp/2) - rho(pmid - dp/2)) / dp` with `dp` the local
spacing `p[k+1] - p[k]`, sets `fraction_positive` to the fraction of
midpoint derivatives exceeding `-tol`, and sets `passed` to true iff every
midpoint derivative exceeds `-tol`. -/
theorem c4_monotonic_midpoint_derivatives (a : SurrogateAdapter) (fluid : String)
    (T : ℚ) (l : List ℚ) (tol : ℚ) (r : MonotonicResult)
    (hsup : a.capabilities.supports_rho = true)
    (hlen : 2 ≤ l.length)
    (hadj : (l.zip l.tail).all (fun q => decide (q.1 ≠ q.2)) = true)
    (hr : r = check_monotonic_rho_isotherm a fluid T l tol) :
    r.drho_dp = ((List.range (l.length - 1)).map fun k =>
        some (specMidpointDeriv a T (l.getD k 0) (l.getD (k + 1) 0)))
      ∧ r.fraction_positive
        = (((List.range (l.length - 1)).countP fun k =>
            decide (-tol < specMidpointDeriv a T (l.getD k 0) (l.getD (k + 1) 0))) : ℚ)
          / ((l.length : ℚ) - 1)
      ∧ (r.passed = true ↔ ∀ k, k + 1 < l.length →
          -tol < specMidpointDeriv a T (l.getD k 0) (l.getD (k + 1) 0)) := by
  subst hr
  have hdr := midpointDerivs_eq_range a T l hadj
  simp only [check_monotonic_rho_isotherm, hsup, Bool.not_true, Bool.false_eq_true, if_false]
  refine ⟨hdr, ?_, ?_⟩
  · rw [hdr]
    have hpos : 0 < l.length - 1 := by omega
    have hcount : ((List.range (l.length - 1)).map fun k =>
          some (specMidpointDeriv a T (l.getD k 0) (l.getD (k + 1) 0))).countP
            (fun d => nanGt d (-tol))
        = (List.range (l.length - 1)).countP fun k =>
            decide (-tol < specMidpointDeriv a T (l.getD k 0) (l.getD (k + 1) 0)) := by
      rw [List.countP_map]
      rfl
    simp only [List.length_map, List.length_range, gt_iff_lt, hpos, if_true, hcount]
    rw [Nat.cast_sub (by omega : 1 ≤ l.length)]
    norm_num
  · rw [hdr, all_map_comp, List.all_eq_true]
    constructor
    · intro h k hk
      have := h k (List.mem_range.mpr (by omega))
      simpa [nanGt] using this
    · intro h k hk
      have hk2 : k + 1 < l.length := by
        have := List.mem_range.mp hk
        omega
      simpa [nanGt] using h k hk2

/-- Closed instance of `c4_monotonic_midpoint_derivatives` on the grid
`[1, 2, 3]`. -/
theorem c4_monotonic_midpoint_derivatives_witness :
    (check_monotonic_rho_isotherm sampleAdapter "CO2" 300 [1, 2, 3] (1 / 1000000)).drho_dp
      = ((List.range (([1, 2, 3] : List ℚ).length - 1)).map fun k =>
          some (specMidpointDeriv sampleAdapter 300 (([1, 2, 3] : List ℚ).getD k 0)
            (([1, 2, 3] : List ℚ).getD (k + 1) 0))) :=
  (c4_monotonic_midpoint_derivatives sampleAdapter "CO2" 300 [1, 2, 3] (1 / 1000000)
    _ rfl (by norm_num) (by norm_num [List.zip, List.zipWith]) rfl).1

/-- C6: for an adapter supporting density and any pressure grid with
pairwise-distinct consecutive points, `check_compressibility` computes at
each midpoint `kappa` equal to the centered derivative divided by the
midpoint density floor-clamped to `1e-30` (so never a division by zero),
passes iff every `kappa` exceeds `-tol`, and raises the same near-boundary
warning policy as C1 applied to `kappa`. -/
theorem c6_compressibility_midpoint_kappas (a : SurrogateAdapter) (fluid : String)
    (T : ℚ) (l : List ℚ) (tol : ℚ) (r : CompressibilityResult)
    (hsup : a.capabilities.supports_rho = true)
    (hadj : (l.zip l.tail).all (fun q => decide (q.1 ≠ q.2)) = true)
    (hr : r = check_compressibility a fluid T l tol) :
    r.kappa_T = ((List.range (l.length - 1)).map fun k =>
        some (specMidpointKappa a T (l.getD k 0) (l.getD (k + 1) 0)))
      ∧ (r.passed = true ↔ ∀ k, k + 1 < l.length →
          -tol < specMidpointKappa a T (l.getD k 0) (l.getD (k + 1) 0))
      ∧ (r.near_spinodal = true ↔ ∃ k, k + 1 < l.length
          ∧ 0 ≤ specMidpointKappa a T (l.getD k 0) (l.getD (k + 1) 0)
          ∧ specMidpointKappa a T (l.getD k 0) (l.getD (k + 1) 0)
              < max (10 * tol) (1 / 10 ^ 9)) := by
  subst hr
  have hk := midpointKappas_eq_range a T l hadj
  simp only [check_compressibility, hsup, Bool.not_true, Bool.false_eq_true, if_false]
  refine ⟨hk, ?_, ?_⟩
  · rw [hk, all_map_comp, List.all_eq_true]
    constructor
    · intro h k hk2
      have := h k (List.mem_range.mpr (by omega))
      simpa [nanGt] using this
    · intro h k hk2
      have hk3 : k + 1 < l.length := by
        have := List.mem_range.mp hk2
        omega
      simpa [nanGt] using h k hk3
  · rw [hk, any_map_comp, List.any_eq_true]
    constructor
    · rintro ⟨k, hmem, hp⟩
      have hk3 : k + 1 < l.length := by
        have := List.mem_range.mp hmem
        omega
      refine ⟨k, hk3, ?_⟩
      simpa [nanInCO] using hp
    · rintro ⟨k, hk3, h0, h1⟩
      refine ⟨k, List.mem_range.mpr (by omega), ?_⟩
      simp only [nanInCO, Bool.and_eq_true, decide_eq_true_eq]
      exact ⟨h0, h1⟩

/-- Closed instance of `c6_compressibility_midpoint_kappas` on the grid
`[1, 2]`. -/
theorem c6_compressibility_midpoint_kappas_witness :
    (check_compressibility sampleAdapter "CO2" 300 [1, 2] (1 / 1000000)).kappa_T
      = ((List.range (([1, 2] : List ℚ).length - 1)).map fun k =>
          some (specMidpointKappa sampleAdapter 300 (([1, 2] : List ℚ).getD k 0)
            (([1, 2] : List ℚ).getD (k + 1) 0))) :=
  (c6_compressibility_midpoint_kappas sampleAdapter "CO2" 300 [1, 2] (1 / 1000000)
    _ rfl (by norm_num [List.zip, List.zipWith]) rfl).1

/-- C7: if the adapter's `phase_split_at_T` raises at some temperature of
the evaluated (range-filtered) list, `check_clapeyron` returns (rather
than aborting) a result with `supported = false` and `passed = false`, an
infinite relative error recorded at the failing position, and entries
still produced for every evaluated temperature, the remaining ones
included. -/
theorem c7_clapeyron_graceful_degradation (a : SurrogateAdapter) (b : Baseline)
    (fluid : String) (T_list : List ℚ) (tol_rel : ℚ) (l1 l2 : List ℚ) (Tbad : ℚ)
    (r : ClapeyronResult)
    (hcaps : a.capabilities.supports_phase_split = true
      ∧ a.capabilities.supports_h = true ∧ a.capabilities.supports_rho = true)
    (hfilter : filterTs b.bounds T_list = l1 ++ Tbad :: l2)
    (hfail : a.phase_split_at_T Tbad = none)
    (hr : r = check_clapeyron a b fluid T_list tol_rel) :
    r.supported = false ∧ r.passed = false
      ∧ r.rel_errors.length = (l1 ++ Tbad :: l2).length
      ∧ r.rel_errors.getD l1.length (some 0) = none
      ∧ r.lhs_values.length = (l1 ++ Tbad :: l2).length := by
  subst hr
  have hne : (l1 ++ Tbad :: l2).isEmpty = false := by cases l1 <;> rfl
  have hs := clapeyronLoop_fail_at a b
    (a.capabilities.supports_phase_split && a.capabilities.supports_h
      && a.capabilities.supports_rho) l1 Tbad l2 hfail
  have hl := clapeyronLoop_lengths a b
    (a.capabilities.supports_phase_split && a.capabilities.supports_h
      && a.capabilities.supports_rho) (l1 ++ Tbad :: l2)
  simp only [check_clapeyron, hfilter, hne, Bool.false_eq_true, if_false]
  refine ⟨hs.1, ?_, hl.2.2, hs.2, hl.1⟩
  rw [hs.1]
  rfl

/-- Closed instance of `c7_clapeyron_graceful_degradation` at an adapter
whose phase split always raises, with one requested temperature. -/
theorem c7_clapeyron_graceful_degradation_witness :
    (check_clapeyron brokenSplitAdapter sampleBaseline "CO2" [300] (1 / 10)).supported = false
      ∧ (check_clapeyron brokenSplitAdapter sampleBaseline "CO2" [300] (1 / 10)).passed = false
      ∧ (check_clapeyron brokenSplitAdapter sampleBaseline "CO2" [300] (1 / 10)).rel_errors.getD 0 (some 0) = none := by
  have h := c7_clapeyron_graceful_degradation brokenSplitAdapter sampleBaseline "CO2"
    [300] (1 / 10) [] [] 300 _ ⟨rfl, rfl, rfl⟩ rfl rfl rfl
  exact ⟨h.1, h.2.1, h.2.2.2.1⟩

end ThermoBench
